import Mathlib

/-!
Verification of the kumo download engine against its natural-language
specification.  The development shallowly embeds the relevant Python code:

* `src/kumo/engine/downloader.py` — class `ImageDownloader`
  (`download_task`, `download_tasks`, `stats`, `timeout`, `set_timeout`,
  `_build_headers`);
* `src/kumo/utils/helpers.py` — `random_delay`;
* `src/kumo/exceptions.py` — `TaskDownloadError`.

Modelling conventions:

* Python exceptions are values of `Exc`, identified by their message.
* The nondeterministic environment of one `download_task` call — what the
  network returns on each attempt, whether the filesystem raises, how the
  task hooks behave — is a `TaskEnv`.  `download_task` then becomes a pure
  function from configuration and environment to an observable
  `TaskResult` (return value or escaped exception, attempts made, error
  list, counter increments, hook-invocation counts).
* Seconds are modelled as rationals; the code only compares them to zero
  and passes them on, so no floating-point behaviour is lost.
* The asyncio semaphore of `download_tasks` is modelled separately as a
  small-step transition system (`WorkerPhase`, `BatchStep`).
-/

namespace Kumo

/-- A Python exception value, identified by its message. -/
structure Exc where
  msg : String
deriving DecidableEq

/-- Outcome of the `session.get` call of one attempt: either the response
completes with an HTTP status, or an exception is raised somewhere in the
request before a status is available. -/
inductive AttemptOut where
  | status : Nat → AttemptOut
  | raise : Exc → AttemptOut
deriving DecidableEq

/-- The environment of one `download_task` call: everything outside the
function's own control flow.  `mkdirRaise` is the behaviour of
`task.save_path.parent.mkdir` (line 192); `attempt i` is the behaviour of
the HTTP request of attempt `i` (0-based); `writeRaise i` is an exception
raised by `response.read` / `aiofiles.open` / `f.write` after a 200 status
on attempt `i` (lines 209-212); `onSuccessRaise i` is an exception raised
by the `on_success` hook when invoked on attempt `i` (line 217);
`onErrorRaise` is an exception raised by the `on_error` hook (line 244). -/
structure TaskEnv where
  mkdirRaise : Option Exc
  attempt : Nat → AttemptOut
  writeRaise : Nat → Option Exc
  onSuccessRaise : Nat → Option Exc
  onErrorRaise : Option Exc

/-- Configuration of an `ImageDownloader` (constructor parameters,
lines 84-95 of downloader.py). -/
structure Config where
  max_concurrent : Nat
  delay_range : Option (Rat × Rat)
  max_retries : Nat
  timeout : Int
  default_headers : List (String × String)

/-- The constructor defaults (lines 86-90). -/
def defaultConfig : Config :=
  { max_concurrent := 3, delay_range := some (1, 3), max_retries := 3,
    timeout := 60, default_headers := [] }

/-- Mutable state accumulated by the retry loop of `download_task`
(lines 194-238): the `errors` list, the increments this call makes to the
private counters, the number of `on_success` invocations, the number of
loop iterations entered (attempts made), and the number of pacing
`random_delay(*self.delay_range)` calls (line 198). -/
structure LoopSt where
  errors : List Exc
  downloadedInc : Nat
  onSuccessCalls : Nat
  attemptsMade : Nat
  pacingCalls : Nat
deriving DecidableEq

/-- One pass over the `for attempt in range(self.max_retries)` loop of
`download_task` (lines 194-238), starting at attempt index `i` with `fuel`
iterations remaining.  Returns the final loop state and whether the loop
returned `True` (line 218).  Faithful to the source:

* every iteration first performs the pacing delay when `delay_range` is
  truthy (lines 197-198);
* status 200: body is read and written (an exception there is caught like
  any other, line 232); on a successful write the downloaded counter is
  incremented (line 214) and `on_success` invoked (line 217) — an
  exception raised by the hook is caught by the same `except` (line 232)
  and retried;
* status 429 / 403 append a fresh `Exception` with the corresponding
  message and continue (lines 220-230); the extra backoff sleeps change no
  observable state and are not tracked;
* any other status falls through the `if`/`elif` chain with no `else`:
  nothing is appended and the loop moves to the next attempt;
* a raised exception is appended (line 233) and the loop either continues
  or breaks (lines 234-238); both end the iteration the same way here. -/
def attemptLoop (cfg : Config) (env : TaskEnv) : Nat → Nat → LoopSt → LoopSt × Bool
  | 0, _, st => (st, false)
  | fuel + 1, i, st =>
    let st1 : LoopSt :=
      { st with attemptsMade := st.attemptsMade + 1,
                pacingCalls := st.pacingCalls +
                  (if cfg.delay_range.isSome then 1 else 0) }
    match env.attempt i with
    | .raise e =>
      attemptLoop cfg env fuel (i + 1) { st1 with errors := st1.errors ++ [e] }
    | .status c =>
      if c = 200 then
        match env.writeRaise i with
        | some e =>
          attemptLoop cfg env fuel (i + 1) { st1 with errors := st1.errors ++ [e] }
        | none =>
          let st2 : LoopSt :=
            { st1 with downloadedInc := st1.downloadedInc + 1,
                       onSuccessCalls := st1.onSuccessCalls + 1 }
          match env.onSuccessRaise i with
          | none => (st2, true)
          | some e =>
            attemptLoop cfg env fuel (i + 1) { st2 with errors := st2.errors ++ [e] }
      else if c = 429 then
        attemptLoop cfg env fuel (i + 1)
          { st1 with errors := st1.errors ++ [Exc.mk "HTTP 429: Rate limited"] }
      else if c = 403 then
        attemptLoop cfg env fuel (i + 1)
          { st1 with errors := st1.errors ++ [Exc.mk "HTTP 403: Forbidden"] }
      else
        attemptLoop cfg env fuel (i + 1) st1

/-- The `TaskDownloadError` value built by its constructor
(src/kumo/exceptions.py, lines 146-156): keeps the url, the error list,
the last error (`errors[-1] if errors else None`) and
`attempts = len(errors)`. -/
structure TaskDownloadError where
  url : String
  original_errors : List Exc
  last_error : Option Exc
  attempts : Nat
deriving DecidableEq

/-- Constructor of `TaskDownloadError` (lines 146-151 of exceptions.py). -/
def TaskDownloadError.make (url : String) (errors : List Exc) : TaskDownloadError :=
  { url := url, original_errors := errors, last_error := errors.getLast?,
    attempts := errors.length }

/-- Everything observable about one `download_task` call: its outcome
(`.ok b` for a normal return of `b`, `.error e` for an exception escaping
the coroutine), the attempts made, the final error list, the increments to
the two private counters, the hook-invocation counts, and the
`TaskDownloadError` passed to `on_error` when the task failed. -/
structure TaskResult where
  result : Except Exc Bool
  attemptsMade : Nat
  pacingCalls : Nat
  errors : List Exc
  downloadedInc : Nat
  failedInc : Nat
  onSuccessCalls : Nat
  onErrorCalls : Nat
  errorPayload : Option TaskDownloadError

namespace ImageDownloader

/-- Embedding of `ImageDownloader.download_task` (downloader.py,
lines 165-246).  The semaphore acquisition (line 190) is modelled
separately as a transition system; here the body it guards is run.
`task.save_path.parent.mkdir` (line 192) sits before the `try`, so an
exception there escapes the coroutine.  After the loop, the failed counter
is incremented (line 240), `TaskDownloadError(task.url, errors)` is built
(line 243) and `on_error` invoked (line 244) — an exception raised by the
hook escapes, the hook having been invoked once. -/
def download_task (cfg : Config) (url : String) (env : TaskEnv) : TaskResult :=
  match env.mkdirRaise with
  | some e =>
    { result := .error e, attemptsMade := 0, pacingCalls := 0, errors := [],
      downloadedInc := 0, failedInc := 0, onSuccessCalls := 0,
      onErrorCalls := 0, errorPayload := none }
  | none =>
    let r := attemptLoop cfg env cfg.max_retries 0
      { errors := [], downloadedInc := 0, onSuccessCalls := 0,
        attemptsMade := 0, pacingCalls := 0 }
    let st := r.1
    if r.2 then
      { result := .ok true, attemptsMade := st.attemptsMade,
        pacingCalls := st.pacingCalls, errors := st.errors,
        downloadedInc := st.downloadedInc, failedInc := 0,
        onSuccessCalls := st.onSuccessCalls, onErrorCalls := 0,
        errorPayload := none }
    else
      { result := match env.onErrorRaise with
                  | some e => .error e
                  | none => .ok false,
        attemptsMade := st.attemptsMade, pacingCalls := st.pacingCalls,
        errors := st.errors, downloadedInc := st.downloadedInc,
        failedInc := 1, onSuccessCalls := st.onSuccessCalls,
        onErrorCalls := 1,
        errorPayload := some (TaskDownloadError.make url st.errors) }

/-- The two private counters `__total_downloaded` and `__total_failed`
(lines 100-101). -/
structure EngineState where
  total_downloaded : Nat
  total_failed : Nat
deriving DecidableEq

/-- Value of the `stats` property (lines 104-112). -/
structure Stats where
  downloaded : Nat
  failed : Nat
  total : Nat
deriving DecidableEq

/-- The `stats` property (lines 104-112). -/
def stats (s : EngineState) : Stats :=
  { downloaded := s.total_downloaded, failed := s.total_failed,
    total := s.total_downloaded + s.total_failed }

/-- Whether a gathered result equals Python `True`: `asyncio.gather` with
`return_exceptions=True` turns an escaped exception into a list element,
and `results.count(True)` (line 281) counts only the `True` returns. -/
def succeededResult : Except Exc Bool → Bool
  | .ok true => true
  | _ => false

/-- Embedding of `ImageDownloader.download_tasks` (lines 249-287) acting on
the counter state: every task runs `download_task` (each applying its own
per-task counter increments, lines 214 and 240), then `downloaded_count`
and `failed_count` are computed from the gathered results (lines 281-282)
and added to the counters a second time (lines 284-285).  Returns the new
state and the `(downloaded_count, failed_count)` return value. -/
def download_tasks (cfg : Config) (s : EngineState)
    (tasks : List (String × TaskEnv)) : EngineState × (Nat × Nat) :=
  let results := tasks.map fun t => download_task cfg t.1 t.2
  let s1 : EngineState :=
    { total_downloaded :=
        s.total_downloaded + (results.map TaskResult.downloadedInc).sum,
      total_failed :=
        s.total_failed + (results.map TaskResult.failedInc).sum }
  let downloaded_count := results.countP fun r => succeededResult r.result
  let failed_count := tasks.length - downloaded_count
  ({ total_downloaded := s1.total_downloaded + downloaded_count,
     total_failed := s1.total_failed + failed_count },
   (downloaded_count, failed_count))

end ImageDownloader

/-- Embedding of `random_delay` (helpers.py, lines 47-67) as the list of
`asyncio.sleep` calls it performs: when `max_seconds <= 0` it returns at
once (lines 63-64) with no sleep at all; otherwise it sleeps once for the
duration `draw min_seconds max_seconds`, where `draw` models the
`random.uniform` sampler (line 66). -/
def random_delay (min_seconds max_seconds : Rat) (draw : Rat → Rat → Rat) :
    List Rat :=
  if max_seconds ≤ 0 then []
  else [draw min_seconds max_seconds]

/-- Python dict assignment `d[k] = v` on an insertion-ordered association
list: replace the value in place when the key exists, else append. -/
def dictSet : List (String × String) → String → String → List (String × String)
  | [], k, v => [(k, v)]
  | (k0, v0) :: rest, k, v =>
    if k0 = k then (k0, v) :: rest else (k0, v0) :: dictSet rest k v

/-- Python dict lookup `d.get(k)`. -/
def dictGet : List (String × String) → String → Option String
  | [], _ => none
  | (k0, v0) :: rest, k => if k0 = k then some v0 else dictGet rest k

/-- Python `base.update(upd)`: assign the pairs of `upd` into `base` in
order. -/
def dictUpdate (base upd : List (String × String)) : List (String × String) :=
  upd.foldl (fun d kv => dictSet d kv.1 kv.2) base

/-- ASCII lowercasing of one character, as Python `str.lower` acts on
scheme characters. -/
def lowerChar (c : Char) : Char :=
  if 65 ≤ c.toNat ∧ c.toNat ≤ 90 then Char.ofNat (c.toNat + 32) else c

/-- Splits a character list at the first occurrence of the
scheme separator (colon followed by two slashes): returns the text before
it (accumulated in reverse in `acc`) and the text after it. -/
def splitSchemeAux : List Char → List Char → Option (List Char × List Char)
  | acc, ':' :: '/' :: '/' :: rest => some (acc.reverse, rest)
  | acc, c :: rest => splitSchemeAux (c :: acc) rest
  | _, [] => none

/-- The `scheme` and `netloc` fields of `urllib.parse.urlparse`, modelled
for the absolute URLs a referer carries: in `scheme://netloc/rest` the
scheme is the lowercased text before the first scheme separator and the
netloc runs from after it to the next slash, question mark or hash; a
string with no separator parses with empty scheme and netloc here. -/
def schemeNetloc (url : String) : String × String :=
  match splitSchemeAux [] url.data with
  | none => ("", "")
  | some (schemeChars, rest) =>
    (String.mk (schemeChars.map lowerChar),
     String.mk (rest.takeWhile fun ch => ch != '/' && ch != '?' && ch != '#'))

/-- The fields of `DownloadTask` (src/kumo/core/models.py, lines 69-74)
that header building reads. -/
structure DownloadTask where
  url : String
  save_path : String
  headers : List (String × String)
  cookies : List (String × String)
  referer : String

namespace ImageDownloader

/-- Embedding of `ImageDownloader._build_headers` (downloader.py,
lines 135-162): copy the engine default headers (line 150), overlay the
task headers (line 153), then, when `task.referer` is truthy (a non-empty
string), set `Referer` to the referer and `Origin` to `scheme://netloc`
of the parsed referer (lines 156-160). -/
def _build_headers (cfg : Config) (task : DownloadTask) :
    List (String × String) :=
  let headers := dictUpdate cfg.default_headers task.headers
  if task.referer ≠ "" then
    let headers := dictSet headers "Referer" task.referer
    let parsed := schemeNetloc task.referer
    dictSet headers "Origin" (parsed.1 ++ "://" ++ parsed.2)
  else
    headers

end ImageDownloader

/-- Phase of one worker coroutine of `download_tasks`: `pending` — spawned
by `asyncio.gather` but not yet past `async with self._semaphore`
(downloader.py, line 190); `holding k` — inside the semaphore-guarded
block (directory creation, the whole attempt loop, the hooks;
lines 191-246) having completed `k` internal steps; `done b` — exited the
block with outcome `b`, the slot released. -/
inductive WorkerPhase where
  | pending : WorkerPhase
  | holding : Nat → WorkerPhase
  | done : Bool → WorkerPhase
deriving DecidableEq

/-- Whether a worker currently holds a semaphore slot. -/
def WorkerPhase.isHolding : WorkerPhase → Bool
  | .holding _ => true
  | _ => false

/-- Number of workers currently holding a semaphore slot. -/
def holdingCount (ws : List WorkerPhase) : Nat :=
  ws.countP WorkerPhase.isHolding

/-- Interleaving semantics of one `download_tasks` batch under the
semaphore `asyncio.Semaphore(max_concurrent)` (line 99) with capacity
`c`: a pending worker enters the guarded block only when fewer than `c`
workers hold a slot; a holding worker may take an internal step (a pacing
delay, an attempt, a hook call) or finish, and releases its slot only
when the whole per-task life cycle ends — exactly the extent of the
`async with` block in the source.  The worker list is split as
`pre ++ w :: post` to name the worker that steps. -/
inductive BatchStep (c : Nat) : List WorkerPhase → List WorkerPhase → Prop
  | acquire (pre post : List WorkerPhase)
      (hc : holdingCount (pre ++ WorkerPhase.pending :: post) < c) :
      BatchStep c (pre ++ WorkerPhase.pending :: post)
        (pre ++ WorkerPhase.holding 0 :: post)
  | work (pre post : List WorkerPhase) (k : Nat) :
      BatchStep c (pre ++ WorkerPhase.holding k :: post)
        (pre ++ WorkerPhase.holding (k + 1) :: post)
  | finish (pre post : List WorkerPhase) (k : Nat) (b : Bool) :
      BatchStep c (pre ++ WorkerPhase.holding k :: post)
        (pre ++ WorkerPhase.done b :: post)

/-- Batch states reachable from the start of a batch of `n` workers, all
pending. -/
def BatchReachable (c n : Nat) (ws : List WorkerPhase) : Prop :=
  Relation.ReflTransGen (BatchStep c) (List.replicate n WorkerPhase.pending) ws

/-- Names of the properties the `ImageDownloader` class defines with a
getter and no setter: `stats` (lines 104-112) and `timeout`
(lines 115-119); no `@stats.setter` or `@timeout.setter` appears anywhere
in the class. -/
def getterOnlyProperties : List String := ["stats", "timeout"]

/-- Python `AttributeError`. -/
inductive PyAttrError where
  | attributeError : String → PyAttrError
deriving DecidableEq

/-- The per-instance state relevant to the timeout claims: the `_timeout`
slot set by the constructor (line 97). -/
structure InstanceState where
  _timeout : Int
deriving DecidableEq

/-- Python attribute assignment `self.name = v` on an `ImageDownloader`
instance, per the descriptor protocol: assigning through a class property
that defines no setter raises `AttributeError`; assigning any other name
stores it on the instance (only `_timeout` is kept in this model). -/
def instanceSetattr (s : InstanceState) (name : String) (v : Int) :
    Except PyAttrError InstanceState :=
  if name ∈ getterOnlyProperties then
    .error (PyAttrError.attributeError
      ("property " ++ name ++ " of ImageDownloader object has no setter"))
  else if name = "_timeout" then
    .ok { _timeout := v }
  else
    .ok s

/-- The `timeout` property getter (lines 115-119): returns
`self._timeout`. -/
def timeoutGetter (s : InstanceState) : Int := s._timeout

/-- Embedding of `ImageDownloader.set_timeout` (lines 122-132): its body
is the single statement `self.timeout = timeout`, an attribute assignment
through the `timeout` property. -/
def set_timeout (s : InstanceState) (t : Int) :
    Except PyAttrError InstanceState :=
  instanceSetattr s "timeout" t

/-- The instance as the caller observes it after a call that may have
raised: an escaped exception leaves the object as it was. -/
def afterCall (s : InstanceState) (r : Except PyAttrError InstanceState) :
    InstanceState :=
  match r with
  | .ok s2 => s2
  | .error _ => s

/-- Environment of a task whose every attempt returns HTTP 200, with all
filesystem operations and hooks completing normally. -/
def envAlwaysOk : TaskEnv :=
  { mkdirRaise := none, attempt := fun _ => AttemptOut.status 200,
    writeRaise := fun _ => none, onSuccessRaise := fun _ => none,
    onErrorRaise := none }

/-- Environment of a task whose every attempt returns HTTP 200 but whose
`on_success` hook raises every time it is invoked. -/
def envSuccessHookRaises : TaskEnv :=
  { envAlwaysOk with onSuccessRaise := fun _ => some (Exc.mk "hook failure") }

/-- An unrecoverable per-attempt error, as raised for a malformed
destination path. -/
def excInvalidPath : Exc := Exc.mk "EINVAL: invalid destination path"

/-- Environment of a task whose every attempt raises the unrecoverable
malformed-destination error. -/
def envFatalEveryAttempt : TaskEnv :=
  { envAlwaysOk with attempt := fun _ => AttemptOut.raise excInvalidPath }

/-- Environment of a task whose every attempt raises a transient network
timeout. -/
def envTimeoutEveryAttempt : TaskEnv :=
  { envAlwaysOk with attempt := fun _ => AttemptOut.raise (Exc.mk "TimeoutError") }

/-- Environment of a task whose every attempt completes with HTTP 404. -/
def env404 : TaskEnv :=
  { envAlwaysOk with attempt := fun _ => AttemptOut.status 404 }

/-- A filesystem error raised while creating the destination parent
directory. -/
def excMkdirDenied : Exc := Exc.mk "EACCES: permission denied"

/-- Environment of a task for which `task.save_path.parent.mkdir` raises. -/
def envMkdirRaises : TaskEnv :=
  { envAlwaysOk with mkdirRaise := some excMkdirDenied }

/-- Configuration of the header-merge scenario. -/
def cfgHeadersEx : Config :=
  { defaultConfig with default_headers := [("User-Agent", "kumo")] }

/-- Task of the header-merge scenario: referer set, no explicit `Referer`
or `Origin` header. -/
def taskHeadersEx : DownloadTask :=
  { url := "https://example.com/img.jpg", save_path := "out.jpg",
    headers := [("Accept", "image/avif")], cookies := [],
    referer := "https://example.com/x" }

/-- Unfolding of `dictUpdate` on an empty update. -/
theorem dictUpdate_nil (base : List (String × String)) :
    dictUpdate base [] = base := rfl

/-- Unfolding of `dictUpdate` on a cons: assign the head pair, then update
with the tail. -/
theorem dictUpdate_cons (base : List (String × String)) (k0 v0 : String)
    (tl : List (String × String)) :
    dictUpdate base ((k0, v0) :: tl) = dictUpdate (dictSet base k0 v0) tl := rfl

/-- Looking up the key just assigned finds the assigned value. -/
theorem dictGet_dictSet_self (d : List (String × String)) (k v : String) :
    dictGet (dictSet d k v) k = some v := by
  induction d with
  | nil => simp [dictSet, dictGet]
  | cons hd tl ih =>
    obtain ⟨k0, v0⟩ := hd
    by_cases hk : k0 = k
    · simp [dictSet, dictGet, hk]
    · simp [dictSet, dictGet, hk, ih]

/-- Assigning one key leaves every other lookup unchanged. -/
theorem dictGet_dictSet_ne (d : List (String × String)) (k v k2 : String)
    (hne : k2 ≠ k) : dictGet (dictSet d k v) k2 = dictGet d k2 := by
  induction d with
  | nil => simp [dictSet, dictGet, Ne.symm hne]
  | cons hd tl ih =>
    obtain ⟨k0, v0⟩ := hd
    by_cases hk : k0 = k
    · subst hk
      simp [dictSet, dictGet, Ne.symm hne]
    · simp [dictSet, dictGet, hk, ih]

/-- A key that is absent from a dict looks up to nothing. -/
theorem dictGet_eq_none_of_not_mem (d : List (String × String)) (k : String)
    (h : k ∉ d.map Prod.fst) : dictGet d k = none := by
  induction d with
  | nil => rfl
  | cons hd tl ih =>
    obtain ⟨k0, v0⟩ := hd
    simp only [List.map_cons, List.mem_cons] at h
    push_neg at h
    simp [dictGet, Ne.symm h.1, ih h.2]

/-- Updating with a dict that lacks key `k` leaves the lookup of `k`
unchanged. -/
theorem dictGet_dictUpdate_of_none (upd : List (String × String)) :
    ∀ base k, dictGet upd k = none →
      dictGet (dictUpdate base upd) k = dictGet base k := by
  induction upd with
  | nil => intro base k _; rfl
  | cons hd tl ih =>
    intro base k h
    obtain ⟨k0, v0⟩ := hd
    simp only [dictGet] at h
    by_cases hk : k0 = k
    · simp [hk] at h
    · rw [if_neg hk] at h
      rw [dictUpdate_cons, ih _ k h,
        dictGet_dictSet_ne _ _ _ _ (fun hh => hk hh.symm)]

/-- Updating with a dict (no duplicate keys, as Python dicts have) makes
every key of the update look up to its updated value: the update takes
priority over the base on shared keys. -/
theorem dictGet_dictUpdate_of_some (upd : List (String × String)) :
    ∀ base k v, (upd.map Prod.fst).Nodup → dictGet upd k = some v →
      dictGet (dictUpdate base upd) k = some v := by
  induction upd with
  | nil => intro base k v _ h; simp [dictGet] at h
  | cons hd tl ih =>
    intro base k v hnd h
    obtain ⟨k0, v0⟩ := hd
    simp only [List.map_cons, List.nodup_cons] at hnd
    rw [dictUpdate_cons]
    by_cases hk : k0 = k
    · subst hk
      rw [dictGet, if_pos rfl] at h
      rw [dictGet_dictUpdate_of_none tl _ k0
        (dictGet_eq_none_of_not_mem tl k0 hnd.1)]
      rw [dictGet_dictSet_self]
      exact h
    · rw [dictGet, if_neg hk] at h
      exact ih _ k v hnd.2 h

/-- When every attempt raises, the loop runs to exhaustion: one error is
appended per attempt, in attempt order, the success path is never taken,
and one pacing call precedes every attempt when `delay_range` is set. -/
theorem attemptLoop_all_raise (cfg : Config) (env : TaskEnv) (e : Nat → Exc)
    (h : ∀ j, env.attempt j = AttemptOut.raise (e j)) :
    ∀ fuel i st, attemptLoop cfg env fuel i st =
      ({ errors := st.errors ++ (List.range' i fuel).map e,
         downloadedInc := st.downloadedInc,
         onSuccessCalls := st.onSuccessCalls,
         attemptsMade := st.attemptsMade + fuel,
         pacingCalls := st.pacingCalls +
           (if cfg.delay_range.isSome then fuel else 0) }, false) := by
  intro fuel
  induction fuel with
  | zero => intro i st; simp [attemptLoop]
  | succ n ih =>
    intro i st
    simp only [attemptLoop, h i]
    rw [ih]
    simp [List.range'_succ, Prod.mk.injEq, LoopSt.mk.injEq, List.append_assoc]
    cases hds : cfg.delay_range.isSome <;> simp [hds] <;> omega

/-- When every attempt completes with a status other than 200, 429 and
403, the loop runs to exhaustion appending nothing to the error list. -/
theorem attemptLoop_other_status (cfg : Config) (env : TaskEnv) (cs : Nat → Nat)
    (h : ∀ j, env.attempt j = AttemptOut.status (cs j))
    (h2 : ∀ j, cs j ≠ 200 ∧ cs j ≠ 429 ∧ cs j ≠ 403) :
    ∀ fuel i st, attemptLoop cfg env fuel i st =
      ({ errors := st.errors,
         downloadedInc := st.downloadedInc,
         onSuccessCalls := st.onSuccessCalls,
         attemptsMade := st.attemptsMade + fuel,
         pacingCalls := st.pacingCalls +
           (if cfg.delay_range.isSome then fuel else 0) }, false) := by
  intro fuel
  induction fuel with
  | zero => intro i st; simp [attemptLoop]
  | succ n ih =>
    intro i st
    obtain ⟨hc200, hc429, hc403⟩ := h2 i
    simp only [attemptLoop, h i, if_neg hc200, if_neg hc429, if_neg hc403]
    rw [ih]
    simp [Prod.mk.injEq, LoopSt.mk.injEq]
    cases hds : cfg.delay_range.isSome <;> simp [hds] <;> omega

/-- When the `on_success` hook never raises, the loop invokes it exactly
once if it succeeds and never if it fails. -/
theorem attemptLoop_success_calls (cfg : Config) (env : TaskEnv)
    (hs : ∀ j, env.onSuccessRaise j = none) :
    ∀ fuel i st,
      (attemptLoop cfg env fuel i st).1.onSuccessCalls =
        st.onSuccessCalls +
          (if (attemptLoop cfg env fuel i st).2 then 1 else 0) := by
  intro fuel
  induction fuel with
  | zero => intro i st; simp [attemptLoop]
  | succ n ih =>
    intro i st
    simp only [attemptLoop]
    cases ha : env.attempt i with
    | raise e => rw [ih]
    | status c =>
      by_cases h200 : c = 200
      · simp only [if_pos h200]
        cases hw : env.writeRaise i with
        | some e => rw [ih]
        | none =>
          simp only [hs i]
          simp
      · by_cases h429 : c = 429
        · simp only [if_neg h200, if_pos h429]
          rw [ih]
        · by_cases h403 : c = 403
          · simp only [if_neg h200, if_neg h429, if_pos h403]
            rw [ih]
          · simp only [if_neg h200, if_neg h429, if_neg h403]
            rw [ih]

/-- The loop performs one pacing call per attempt entered when
`delay_range` is set, and none when it is not. -/
theorem attemptLoop_counts (cfg : Config) (env : TaskEnv) :
    ∀ fuel i st, ∃ d,
      (attemptLoop cfg env fuel i st).1.attemptsMade = st.attemptsMade + d ∧
      (attemptLoop cfg env fuel i st).1.pacingCalls =
        st.pacingCalls + (if cfg.delay_range.isSome then d else 0) := by
  intro fuel
  induction fuel with
  | zero =>
    intro i st
    exact ⟨0, by simp [attemptLoop]⟩
  | succ n ih =>
    intro i st
    simp only [attemptLoop]
    cases ha : env.attempt i with
    | raise e =>
      obtain ⟨d, h1, h2⟩ := ih (i + 1) _
      refine ⟨d + 1, ?_, ?_⟩
      · rw [h1]; simp; omega
      · rw [h2]; cases hds : cfg.delay_range.isSome <;> simp [hds] <;> omega
    | status c =>
      by_cases h200 : c = 200
      · simp only [if_pos h200]
        cases hw : env.writeRaise i with
        | some e =>
          obtain ⟨d, h1, h2⟩ := ih (i + 1) _
          refine ⟨d + 1, ?_, ?_⟩
          · rw [h1]; simp; omega
          · rw [h2]; cases hds : cfg.delay_range.isSome <;> simp [hds] <;> omega
        | none =>
          cases ho : env.onSuccessRaise i with
          | none =>
            refine ⟨1, by simp, ?_⟩
            cases hds : cfg.delay_range.isSome <;> simp [hds]
          | some e =>
            obtain ⟨d, h1, h2⟩ := ih (i + 1) _
            refine ⟨d + 1, ?_, ?_⟩
            · rw [h1]; simp; omega
            · rw [h2]; cases hds : cfg.delay_range.isSome <;> simp [hds] <;> omega
      · by_cases h429 : c = 429
        · simp only [if_neg h200, if_pos h429]
          obtain ⟨d, h1, h2⟩ := ih (i + 1) _
          refine ⟨d + 1, ?_, ?_⟩
          · rw [h1]; simp; omega
          · rw [h2]; cases hds : cfg.delay_range.isSome <;> simp [hds] <;> omega
        · by_cases h403 : c = 403
          · simp only [if_neg h200, if_neg h429, if_pos h403]
            obtain ⟨d, h1, h2⟩ := ih (i + 1) _
            refine ⟨d + 1, ?_, ?_⟩
            · rw [h1]; simp; omega
            · rw [h2]; cases hds : cfg.delay_range.isSome <;> simp [hds] <;> omega
          · simp only [if_neg h200, if_neg h429, if_neg h403]
            obtain ⟨d, h1, h2⟩ := ih (i + 1) _
            refine ⟨d + 1, ?_, ?_⟩
            · rw [h1]; simp; omega
            · rw [h2]; cases hds : cfg.delay_range.isSome <;> simp [hds] <;> omega

/-- The two worker-phase counting facts used for the semaphore bound: a
batch starts with no slot held. -/
theorem holdingCount_replicate_pending (n : Nat) :
    holdingCount (List.replicate n WorkerPhase.pending) = 0 := by
  induction n with
  | zero => rfl
  | succ m ih =>
    simp only [List.replicate_succ, holdingCount, List.countP_cons,
      WorkerPhase.isHolding] at ih ⊢
    simp [ih]

/-- Splitting the holding count at a distinguished worker. -/
theorem holdingCount_split (pre post : List WorkerPhase) (w : WorkerPhase) :
    holdingCount (pre ++ w :: post) =
      holdingCount pre + holdingCount post +
        (if w.isHolding then 1 else 0) := by
  simp only [holdingCount, List.countP_append, List.countP_cons]
  omega

/-- C1 (counterexample evaluation): the claim says stats counts every
terminal task exactly once, so an all-succeeding batch of size A followed
by one of size B leaves `stats.downloaded = A + B`.  The code increments
the counters once inside `download_task` (line 214) and once more when
`download_tasks` adds the batch counts (lines 284-285), so each batch task
is counted twice: after a batch of 1 and a batch of 2 all-succeeding
tasks, `stats.downloaded` is 6, not 3. -/
theorem C1_stats_counted_twice :
    ImageDownloader.stats
        (ImageDownloader.download_tasks defaultConfig ⟨0, 0⟩
          [("a", envAlwaysOk)]).1 =
      { downloaded := 2, failed := 0, total := 2 } ∧
    ImageDownloader.stats
        (ImageDownloader.download_tasks defaultConfig
          (ImageDownloader.download_tasks defaultConfig ⟨0, 0⟩
            [("a", envAlwaysOk)]).1
          [("b", envAlwaysOk), ("c", envAlwaysOk)]).1 =
      { downloaded := 6, failed := 0, total := 6 } := ⟨rfl, rfl⟩

/-- C2 (counterexample): the claim says exactly one hook fires, exactly
once, for every behaviour of the hooks, including hooks that raise.  With
every attempt returning HTTP 200 but `on_success` raising, the exception
is caught by the retry `except` (line 232) and the attempt is retried:
`on_success` fires three times, the task nevertheless ends failed, and
`on_error` fires as well. -/
theorem C2_counterexample :
    (ImageDownloader.download_task defaultConfig "u" envSuccessHookRaises).onSuccessCalls = 3 ∧
    (ImageDownloader.download_task defaultConfig "u" envSuccessHookRaises).onErrorCalls = 1 ∧
    (ImageDownloader.download_task defaultConfig "u" envSuccessHookRaises).result = Except.ok false :=
  ⟨rfl, rfl, rfl⟩

/-- C2 (amended): provided the directory creation does not raise and the
`on_success` hook does not raise, exactly one hook fires, exactly once,
per `download_task` call: `on_success` once and `on_error` never when the
task returns True, `on_error` once and `on_success` never otherwise (also
when `on_error` itself raises, it has fired exactly once). -/
theorem C2_hooks_fire_exactly_once (cfg : Config) (url : String)
    (env : TaskEnv) (hm : env.mkdirRaise = none)
    (hs : ∀ j, env.onSuccessRaise j = none) :
    ((ImageDownloader.download_task cfg url env).result = Except.ok true →
      (ImageDownloader.download_task cfg url env).onSuccessCalls = 1 ∧
      (ImageDownloader.download_task cfg url env).onErrorCalls = 0) ∧
    ((ImageDownloader.download_task cfg url env).result ≠ Except.ok true →
      (ImageDownloader.download_task cfg url env).onSuccessCalls = 0 ∧
      (ImageDownloader.download_task cfg url env).onErrorCalls = 1) := by
  have hcalls := attemptLoop_success_calls cfg env hs cfg.max_retries 0
    ⟨[], 0, 0, 0, 0⟩
  rcases hal : attemptLoop cfg env cfg.max_retries 0 ⟨[], 0, 0, 0, 0⟩ with ⟨st, b⟩
  rw [hal] at hcalls
  simp only [ImageDownloader.download_task, hm, hal]
  cases b with
  | true =>
    simp only [if_pos rfl] at hcalls ⊢
    simp at hcalls
    constructor
    · intro _
      exact ⟨hcalls, rfl⟩
    · intro hne
      simp at hne
  | false =>
    simp at hcalls
    constructor
    · intro heq
      cases hoe : env.onErrorRaise <;> simp [hoe] at heq
    · intro _
      exact ⟨hcalls, rfl⟩

/-- C2 witness: for a task that succeeds with well-behaved hooks,
`on_success` fires exactly once and `on_error` never. -/
theorem C2_hooks_fire_exactly_once_witness :
    (ImageDownloader.download_task defaultConfig "u" envAlwaysOk).onSuccessCalls = 1 ∧
    (ImageDownloader.download_task defaultConfig "u" envAlwaysOk).onErrorCalls = 0 :=
  (C2_hooks_fire_exactly_once defaultConfig "u" envAlwaysOk rfl (fun _ => rfl)).1 rfl

/-- C3: a task whose every attempt raises a transient exception makes
exactly `max_retries` attempts, returns False, and the
`TaskDownloadError` handed to `on_error` carries the causes of all
attempts in order — a list of length exactly `max_retries`, with
`attempts = max_retries`. -/
theorem C3_transient_retries_exhausted (cfg : Config) (url : String)
    (env : TaskEnv) (e : Nat → Exc)
    (hm : env.mkdirRaise = none) (he : env.onErrorRaise = none)
    (h : ∀ j, env.attempt j = AttemptOut.raise (e j)) :
    (ImageDownloader.download_task cfg url env).result = Except.ok false ∧
    (ImageDownloader.download_task cfg url env).attemptsMade = cfg.max_retries ∧
    (ImageDownloader.download_task cfg url env).errorPayload =
      some (TaskDownloadError.make url ((List.range cfg.max_retries).map e)) ∧
    ((List.range cfg.max_retries).map e).length = cfg.max_retries ∧
    (TaskDownloadError.make url ((List.range cfg.max_retries).map e)).attempts =
      cfg.max_retries := by
  have hal := attemptLoop_all_raise cfg env e h cfg.max_retries 0 ⟨[], 0, 0, 0, 0⟩
  simp only [ImageDownloader.download_task, hm, hal]
  simp [he, TaskDownloadError.make, List.range_eq_range']

/-- C3 witness: with the default configuration (three retries) and a
timeout on every attempt, the task ends failed after exactly 3 attempts. -/
theorem C3_transient_retries_exhausted_witness :
    (ImageDownloader.download_task defaultConfig "u" envTimeoutEveryAttempt).result = Except.ok false ∧
    (ImageDownloader.download_task defaultConfig "u" envTimeoutEveryAttempt).attemptsMade = 3 := by
  have h := C3_transient_retries_exhausted defaultConfig "u" envTimeoutEveryAttempt
    (fun _ => Exc.mk "TimeoutError") rfl rfl (fun _ => rfl)
  exact ⟨h.1, h.2.1⟩

/-- C4 (counterexample): the claim says an unrecoverable first-attempt
error (such as a malformed destination path) leads to exactly 1 attempt.
The `except` handler (lines 232-238) treats every exception alike and
retries, so under the default configuration 3 attempts are made, not 1. -/
theorem C4_counterexample :
    (ImageDownloader.download_task defaultConfig "u" envFatalEveryAttempt).attemptsMade = 3 ∧
    (ImageDownloader.download_task defaultConfig "u" envFatalEveryAttempt).attemptsMade ≠ 1 ∧
    (ImageDownloader.download_task defaultConfig "u" envFatalEveryAttempt).result = Except.ok false :=
  ⟨rfl, by decide, rfl⟩

/-- C4 (amended): the code has no fatal classification and never gives up
early — a task whose attempts raise, however unrecoverable the error,
makes exactly `max_retries` attempts and ends failed; only the attempt
budget stops the retrying. -/
theorem C4_unrecoverable_still_retried (cfg : Config) (url : String)
    (env : TaskEnv) (e : Nat → Exc)
    (hm : env.mkdirRaise = none) (he : env.onErrorRaise = none)
    (h : ∀ j, env.attempt j = AttemptOut.raise (e j)) :
    (ImageDownloader.download_task cfg url env).attemptsMade = cfg.max_retries ∧
    (ImageDownloader.download_task cfg url env).result = Except.ok false := by
  have hal := attemptLoop_all_raise cfg env e h cfg.max_retries 0 ⟨[], 0, 0, 0, 0⟩
  simp only [ImageDownloader.download_task, hm, hal]
  simp [he]

/-- C4 witness: the unrecoverable malformed-destination error is retried
up to the full default budget of 3 attempts and the task ends failed. -/
theorem C4_unrecoverable_still_retried_witness :
    (ImageDownloader.download_task defaultConfig "u" envFatalEveryAttempt).attemptsMade = 3 ∧
    (ImageDownloader.download_task defaultConfig "u" envFatalEveryAttempt).result = Except.ok false := by
  have h := C4_unrecoverable_still_retried defaultConfig "u" envFatalEveryAttempt
    (fun _ => excInvalidPath) rfl rfl (fun _ => rfl)
  exact ⟨h.1, h.2⟩

/-- C5 (counterexample evaluation): the claim says a non-2xx status other
than 429 and 403 is classified transient and its cause appended, so a task
failing every attempt with such a status ends with an error list as long
as the number of attempts.  The status dispatch (lines 208-230) has no
branch for other statuses: a task answered HTTP 404 on every attempt under
the default configuration makes 3 attempts, ends failed, and its error
list is empty — the `TaskDownloadError` even reports `attempts = 0`. -/
theorem C5_other_status_drops_causes :
    (ImageDownloader.download_task defaultConfig "u" env404).attemptsMade = 3 ∧
    (ImageDownloader.download_task defaultConfig "u" env404).result = Except.ok false ∧
    (ImageDownloader.download_task defaultConfig "u" env404).errors = [] ∧
    (ImageDownloader.download_task defaultConfig "u" env404).errorPayload =
      some { url := "u", original_errors := [], last_error := none, attempts := 0 } :=
  ⟨rfl, rfl, rfl, rfl⟩

/-- C6 (counterexample): the claim says `download_task` never raises on
job failure, every filesystem error while preparing the destination being
caught.  The `mkdir` call (line 192) sits before the `try`: when it
raises, the exception escapes `download_task` and neither hook fires. -/
theorem C6_counterexample :
    (ImageDownloader.download_task defaultConfig "u" envMkdirRaises).result =
      Except.error excMkdirDenied ∧
    (ImageDownloader.download_task defaultConfig "u" envMkdirRaises).onErrorCalls = 0 ∧
    (ImageDownloader.download_task defaultConfig "u" envMkdirRaises).onSuccessCalls = 0 :=
  ⟨rfl, rfl, rfl⟩

/-- C6 (amended): provided the destination-directory creation and the
`on_error` hook do not themselves raise, `download_task` never raises:
every attempt-level error is caught inside the retry loop and the call
returns a boolean. -/
theorem C6_no_raise_from_attempt_loop (cfg : Config) (url : String)
    (env : TaskEnv) (hm : env.mkdirRaise = none) (he : env.onErrorRaise = none) :
    ∃ b, (ImageDownloader.download_task cfg url env).result = Except.ok b := by
  rcases hal : attemptLoop cfg env cfg.max_retries 0 ⟨[], 0, 0, 0, 0⟩ with ⟨st, b⟩
  simp only [ImageDownloader.download_task, hm, hal]
  cases b with
  | true => exact ⟨true, by simp⟩
  | false => exact ⟨false, by simp [he]⟩

/-- C6 witness: a normal successful task returns a boolean, raising
nothing. -/
theorem C6_no_raise_from_attempt_loop_witness :
    ∃ b, (ImageDownloader.download_task defaultConfig "u" envAlwaysOk).result = Except.ok b :=
  C6_no_raise_from_attempt_loop defaultConfig "u" envAlwaysOk rfl rfl

/-- C7: `_build_headers` returns the engine default headers overridden by
the task headers (task headers take priority on shared keys), and exactly
when `task.referer` is non-empty it additionally sets `Referer` to the
referer and `Origin` to `scheme://host` of the parsed referer, leaving
every other key as in the plain merge. -/
theorem C7_build_headers_spec (cfg : Config) (task : DownloadTask)
    (hwf : (task.headers.map Prod.fst).Nodup) :
    (task.referer = "" →
      ImageDownloader._build_headers cfg task =
        dictUpdate cfg.default_headers task.headers) ∧
    (task.referer ≠ "" →
      dictGet (ImageDownloader._build_headers cfg task) "Referer" =
        some task.referer ∧
      dictGet (ImageDownloader._build_headers cfg task) "Origin" =
        some ((schemeNetloc task.referer).1 ++ "://" ++
          (schemeNetloc task.referer).2) ∧
      ∀ k, k ≠ "Referer" → k ≠ "Origin" →
        dictGet (ImageDownloader._build_headers cfg task) k =
          dictGet (dictUpdate cfg.default_headers task.headers) k) ∧
    (∀ k v, dictGet task.headers k = some v →
      dictGet (dictUpdate cfg.default_headers task.headers) k = some v) ∧
    (∀ k, dictGet task.headers k = none →
      dictGet (dictUpdate cfg.default_headers task.headers) k =
        dictGet cfg.default_headers k) := by
  refine ⟨?_, ?_, ?_, ?_⟩
  · intro href
    simp [ImageDownloader._build_headers, href]
  · intro href
    simp only [ImageDownloader._build_headers, if_pos href]
    refine ⟨?_, ?_, ?_⟩
    · rw [dictGet_dictSet_ne _ _ _ _ (by decide)]
      exact dictGet_dictSet_self _ _ _
    · exact dictGet_dictSet_self _ _ _
    · intro k hk1 hk2
      rw [dictGet_dictSet_ne _ _ _ _ hk2, dictGet_dictSet_ne _ _ _ _ hk1]
  · intro k v hv
    exact dictGet_dictUpdate_of_some task.headers cfg.default_headers k v hwf hv
  · intro k hv
    exact dictGet_dictUpdate_of_none task.headers cfg.default_headers k hv

/-- C7 witness: the header-merge scenario of the spec — referer
`https://example.com/x` yields `Referer: https://example.com/x` and
`Origin: https://example.com`, while the engine default `User-Agent`
survives the merge. -/
theorem C7_build_headers_spec_witness :
    dictGet (ImageDownloader._build_headers cfgHeadersEx taskHeadersEx) "Referer" =
      some "https://example.com/x" ∧
    dictGet (ImageDownloader._build_headers cfgHeadersEx taskHeadersEx) "Origin" =
      some "https://example.com" ∧
    dictGet (ImageDownloader._build_headers cfgHeadersEx taskHeadersEx) "User-Agent" =
      some "kumo" := by
  have h := C7_build_headers_spec cfgHeadersEx taskHeadersEx (by decide)
  refine ⟨(h.2.1 (by decide)).1, Eq.trans ((h.2.1 (by decide)).2.1) (by decide), ?_⟩
  have h3 := (h.2.1 (by decide)).2.2 "User-Agent" (by decide) (by decide)
  rw [h3]
  decide

/-- C8: `random_delay` with `max_seconds <= 0` returns immediately without
sleeping, and when `delay_range` is configured the pacing call is made
before every attempt of the retry loop — retries included — so the number
of pacing calls equals the number of attempts made. -/
theorem C8_pacing_policy :
    (∀ (mn mx : Rat) (draw : Rat → Rat → Rat), mx ≤ 0 →
      random_delay mn mx draw = []) ∧
    (∀ (cfg : Config) (url : String) (env : TaskEnv),
      cfg.delay_range.isSome = true →
      (ImageDownloader.download_task cfg url env).pacingCalls =
        (ImageDownloader.download_task cfg url env).attemptsMade) := by
  constructor
  · intro mn mx draw hle
    simp [random_delay, hle]
  · intro cfg url env hds
    cases hm : env.mkdirRaise with
    | some e => simp [ImageDownloader.download_task, hm]
    | none =>
      obtain ⟨d, h1, h2⟩ :=
        attemptLoop_counts cfg env cfg.max_retries 0 ⟨[], 0, 0, 0, 0⟩
      rcases hal : attemptLoop cfg env cfg.max_retries 0 ⟨[], 0, 0, 0, 0⟩ with ⟨st, b⟩
      rw [hal] at h1 h2
      simp [hds] at h1 h2
      simp only [ImageDownloader.download_task, hm, hal]
      cases b <;> simp <;> omega

/-- C8 witness: a zero upper bound produces no sleep, and a concrete
successful task under the default configuration paces once per attempt. -/
theorem C8_pacing_policy_witness :
    random_delay 1 0 (fun a _ => a) = [] ∧
    (ImageDownloader.download_task defaultConfig "u" envAlwaysOk).pacingCalls =
      (ImageDownloader.download_task defaultConfig "u" envAlwaysOk).attemptsMade :=
  ⟨C8_pacing_policy.1 1 0 (fun a _ => a) (le_refl 0),
   C8_pacing_policy.2 defaultConfig "u" envAlwaysOk rfl⟩

/-- C9: in every state reachable by a batch of `n` workers under the
semaphore of capacity `c < n`, at most `c` workers are inside the
semaphore-guarded block (the whole attempt loop) simultaneously; a worker
acquires its slot before its first attempt and holds it until its task
reaches a terminal state. -/
theorem C9_semaphore_bound (c n : Nat) (ws : List WorkerPhase)
    (hcn : c < n) (hreach : BatchReachable c n ws) :
    holdingCount ws ≤ c := by
  unfold BatchReachable at hreach
  induction hreach with
  | refl => simp [holdingCount_replicate_pending]
  | tail hsteps hstep ih =>
    cases hstep with
    | acquire pre post hc =>
      rw [holdingCount_split] at hc ih ⊢
      simp [WorkerPhase.isHolding] at hc ih ⊢
      omega
    | work pre post k =>
      rw [holdingCount_split] at ih ⊢
      simp [WorkerPhase.isHolding] at ih ⊢
      omega
    | finish pre post k b =>
      rw [holdingCount_split] at ih ⊢
      simp [WorkerPhase.isHolding] at ih ⊢
      omega

/-- C9 witness: two workers, capacity one, after the first worker
acquires the slot. -/
theorem C9_semaphore_bound_witness :
    1 < 2 ∧ holdingCount [WorkerPhase.holding 0, WorkerPhase.pending] ≤ 1 :=
  ⟨by decide,
   C9_semaphore_bound 1 2 [WorkerPhase.holding 0, WorkerPhase.pending] (by decide)
     (Relation.ReflTransGen.single
       (BatchStep.acquire [] [WorkerPhase.pending] (by decide)))⟩

/-- C10: `set_timeout` assigns through the setter-less `timeout` property,
so for every instance and every integer it raises `AttributeError` and
leaves the instance timeout unchanged: the request timeout can never be
modified through `set_timeout`. -/
theorem C10_set_timeout_raises (s : InstanceState) (t : Int) :
    set_timeout s t =
      Except.error (PyAttrError.attributeError
        "property timeout of ImageDownloader object has no setter") ∧
    timeoutGetter (afterCall s (set_timeout s t)) = timeoutGetter s :=
  ⟨rfl, rfl⟩

end Kumo
